import Mathlib

/-!
Verification of the Jellyfish `count` sub-command driver
(`src/sub_commands/count_main.cc`) by a shallow embedding in Lean 4.

The driver orchestrates: a k-mer filter chain (a linked list of predicates
interpreted as a logical and), loading of a counting Bloom filter from a
file, three worker operating modes (COUNT, PRIME, UPDATE) issuing
operations on a shared hash table, and a final dump / merge / unlink phase.
Collaborators whose sources are not part of this tree (the sequence
tokenizer, the hash table internals, the dumper and the merger) are
modelled abstractly: workers are modelled as the trace of table operations
they issue, and the final phase as the trace of dump, merge, abort and
unlink events it produces.
-/

namespace Jellyfish

/-- One DNA base; `mer_dna` packs them at 2 bits per symbol. -/
inductive Base where
  | A | C | G | T
deriving DecidableEq, Repr

/-- Modelled from the spec: a k-mer is a fixed-length string over the
4-symbol alphabet (the `mer_dna` class is not part of this tree). -/
abbrev Mer := List Base

/-- The complement of one base. -/
def Base.comp : Base → Base
  | .A => .T
  | .C => .G
  | .G => .C
  | .T => .A

/-- The 2-bit code of a base, A<C<G<T. -/
def Base.code : Base → Nat
  | .A => 0
  | .C => 1
  | .G => 2
  | .T => 3

/-- Modelled from the spec: the reverse complement of a k-mer. -/
def revcomp (m : Mer) : Mer := (m.map Base.comp).reverse

/-- Modelled from the spec: the bit-packed integer encoding of a k-mer,
2 bits per symbol. -/
def encode (m : Mer) : Nat := m.foldl (fun acc b => 4 * acc + b.code) 0

/-- Modelled from the spec: canonicalization folds a k-mer and its reverse
complement to the lexicographically smaller representative. -/
def canonicalize (m : Mer) : Mer :=
  if encode m ≤ encode (revcomp m) then m else revcomp m

/-- Modelled from the spec: the tokenizer extracts every window of length
`k` from a sequence (`mer_overlap_sequence_parser` is not part of this
tree); a length-`n` sequence yields `n - k + 1` k-mers. -/
def kmers (k : Nat) (s : List Base) : List Mer :=
  (List.range (s.length + 1 - k)).map (fun i => (s.drop i).take k)

/-- Modelled from the spec: the k-mer stream seen by a worker
(`mer_iterator`), which canonicalizes each extracted k-mer exactly when
canonical mode is active. -/
def merStream (canonical : Bool) (raw : List Mer) : List Mer :=
  raw.map (fun m => if canonical then canonicalize m else m)

/-- The k-mer filter chain of `count_main.cc` (`struct filter`,
`struct filter_bf`): a linked list of predicates interpreted as a logical
and. `nil` models the null `prev_` pointer, `base` the plain `filter`
(whose own test is the constant true), and `bf chk prev` a `filter_bf`
holding a Bloom counter whose `check` is the function `chk`. -/
inductive Filter where
  | nil : Filter
  | base (prev : Filter) : Filter
  | bf (chk : Mer → Nat) (prev : Filter) : Filter

/-- Evaluation of a filter on a k-mer, translating
`filter::operator()` , `filter_bf::operator()` and `filter::and_res`:
`and_res(r, x)` is `r ? (prev_ ? (*prev_)(x) : true) : false`, the base
filter calls `and_res(true, x)` and `filter_bf` calls
`and_res(check(m) > 1, m)`. A `nil` previous pointer contributes `true`. -/
def Filter.eval : Filter → Mer → Bool
  | .nil, _ => true
  | .base prev, x => if true then prev.eval x else false
  | .bf chk prev, m => if chk m > 1 then prev.eval m else false

/-- The list of (non-trivial) predicates linked in a filter chain: the base
filter contributes its constant-true test implicitly, a `filter_bf`
contributes the test `check(m) > 1`. -/
def Filter.preds : Filter → List (Mer → Bool)
  | .nil => []
  | .base prev => prev.preds
  | .bf chk prev => (fun m => decide (chk m > 1)) :: prev.preds

lemma eval_iff_preds (f : Filter) (m : Mer) :
    f.eval m = true ↔ ∀ p ∈ f.preds, p m = true := by
  induction f with
  | nil => simp [Filter.eval, Filter.preds]
  | base prev ih => simpa [Filter.eval, Filter.preds] using ih
  | bf chk prev ih =>
    by_cases h : chk m > 1
    · simp [Filter.eval, Filter.preds, h, ih]
    · simp [Filter.eval, Filter.preds, h]

/-- C3: with a Bloom filter supplied, a k-mer `m` passes the
Bloom-filter predicate `filter_bf` if and only if the filter's estimate
`check(m)` is strictly greater than 1 and every earlier predicate in the
chain also accepts `m`; equivalently, the predicate computes the
conjunction of `check(m) > 1` with the previous chain, so k-mers with
estimate 0 or 1 are rejected. -/
theorem C3_bloom_predicate_iff (chk : Mer → Nat) (prev : Filter) (m : Mer) :
    ((Filter.bf chk prev).eval m = true ↔
      1 < chk m ∧ ∀ p ∈ prev.preds, p m = true) ∧
    (Filter.bf chk prev).eval m = (decide (1 < chk m) && prev.eval m) := by
  constructor
  · by_cases h : 1 < chk m
    · simp [Filter.eval, h, eval_iff_preds prev m]
    · simp [Filter.eval, h]
  · by_cases h : 1 < chk m <;> simp [Filter.eval, h]

/-- C4: the filter chain evaluates as a logical and over its linked
predicates — a k-mer is accepted iff every predicate in the chain accepts
it — and the default chain (the base `filter` with a null previous
pointer) is the constant-true predicate. -/
theorem C4_filter_chain_and (f : Filter) (m : Mer) :
    (f.eval m = true ↔ ∀ p ∈ f.preds, p m = true) ∧
    (Filter.base Filter.nil).eval m = true := by
  exact ⟨eval_iff_preds f m, rfl⟩

/-- Header fields of a Bloom filter file, as read by
`jellyfish::file_header` (not part of this tree): the format tag, the
stored key length in bits, the declared counter-array size and the number
of hash functions. -/
structure BloomFileHeader where
  format : String
  key_len : Nat
  size : Nat
  nb_hashes : Nat
deriving DecidableEq, Repr

/-- Modelled from the spec: the observable state of a Bloom filter file as
`load_bloom_filter` reads it. `headerGood` is the stream state
(`in.good()`) right after the header parse; `bodyComplete` is the stream
state after the counter array of the declared size has been read, false
exactly when fewer bytes than that size were available. -/
structure BloomFile where
  headerGood : Bool
  header : BloomFileHeader
  bodyComplete : Bool
deriving DecidableEq, Repr

/-- The distinct diagnostic aborts of `load_bloom_filter`, one per `die`
site, in source order. -/
inductive LoadError where
  | parseFailed
  | invalidFormat
  | invalidMerLen
  | truncated
deriving DecidableEq, Repr

/-- The loaded Bloom counter (`mer_dna_bloom_counter`), reduced to the
header data the constructor receives; its counter contents play no role in
the load-time checks. -/
structure mer_dna_bloom_counter where
  size : Nat
  nb_hashes : Nat
deriving DecidableEq, Repr

/-- `load_bloom_filter` from `count_main.cc`: aborts when the stream is
not good after the header parse, when the format tag is not
"bloomcounter", when the stored key length differs from `2k`, or when the
counter array is truncated; otherwise returns the filter. Each `die` is
modelled as the corresponding error value. -/
def load_bloom_filter (k : Nat) (f : BloomFile) :
    Except LoadError mer_dna_bloom_counter :=
  if f.headerGood = false then .error .parseFailed
  else if f.header.format ≠ "bloomcounter" then .error .invalidFormat
  else if f.header.key_len ≠ k * 2 then .error .invalidMerLen
  else if f.bodyComplete = false then .error .truncated
  else .ok ⟨f.header.size, f.header.nb_hashes⟩

/-- Whether a load attempt succeeded. -/
def loadOk (r : Except LoadError mer_dna_bloom_counter) : Bool :=
  match r with
  | .ok _ => true
  | .error _ => false

/-- A Bloom filter file whose header carries the expected tag and the key
length matching `k = 4`, whose counter array is fully available, but whose
stream is not good after the header parse (for instance an unreadable
file): `load_bloom_filter` still aborts on it. -/
def badBloomFile : BloomFile :=
  { headerGood := false
    header := { format := "bloomcounter", key_len := 8, size := 1024, nb_hashes := 2 }
    bodyComplete := true }

/-- C2, counterexample: the claim lists exactly three failing cases
(format tag, key length, truncation) and asserts load succeeds otherwise;
but on `badBloomFile` none of the three listed conditions holds — the tag
is "bloomcounter", the key length equals `4 * 2`, the body is complete —
and the code nevertheless aborts, at its first `die` site
("Failed to parse bloom filter file"). -/
theorem C2_exactly_three_cases_refuted :
    loadOk (load_bloom_filter 4 badBloomFile) = false ∧
    badBloomFile.header.format = "bloomcounter" ∧
    badBloomFile.header.key_len = 4 * 2 ∧
    badBloomFile.bodyComplete = true := by
  decide

/-- C2, amended: loading a Bloom filter file aborts with a diagnostic in
exactly these cases: the stream is not good after the header parse (the
file is unreadable or its header malformed); the parsed header's format
tag is not "bloomcounter"; the stored key length disagrees with the
configured `k` (`key_len ≠ 2k`); or fewer bytes than the declared
counter-array size are available. Otherwise load returns a usable
filter. -/
theorem C2_load_failure_cases (k : Nat) (f : BloomFile) :
    loadOk (load_bloom_filter k f) = true ↔
      f.headerGood = true ∧ f.header.format = "bloomcounter" ∧
      f.header.key_len = k * 2 ∧ f.bodyComplete = true := by
  unfold load_bloom_filter
  by_cases h1 : f.headerGood = false
  · simp [h1, loadOk]
  · by_cases h2 : f.header.format = "bloomcounter"
    · by_cases h3 : f.header.key_len = k * 2
      · by_cases h4 : f.bodyComplete = false
        · simp [h1, h2, h3, h4, loadOk]
        · simp [h1, h2, h3, h4, loadOk]
      · simp [h1, h2, h3, loadOk]
    · simp [h1, h2, loadOk]

/-- The operations a worker issues on the shared hash table (`mer_hash`,
not part of this tree); the table itself is modelled by the trace of these
operations. `done` is the end-of-input notification. -/
inductive TableOp where
  | add (m : Mer) (delta : Nat)
  | set (m : Mer)
  | updateAdd (m : Mer) (delta : Nat)
  | done
deriving DecidableEq, Repr

/-- The three operating modes of the counting driver (`enum OPERATION`). -/
inductive OPERATION where
  | COUNT | PRIME | UPDATE
deriving DecidableEq, Repr

/-- The table operation one accepted k-mer produces in each mode, per the
switch in `mer_counter::start`: `add(*mers, 1)` under COUNT, `set(*mers)`
under PRIME, `update_add(*mers, 1, tmp)` under UPDATE. -/
def opFor : OPERATION → Mer → TableOp
  | .COUNT, m => .add m 1
  | .PRIME, m => .set m
  | .UPDATE, m => .updateAdd m 1

/-- One worker's body, `mer_counter::start(thid)`: iterate the k-mer
stream (canonicalized when canonical mode is active), issue the mode's
operation for each k-mer the filter accepts, and call `done()` on the
table once the iterator is exhausted. `raw` is the list of k-mer windows
the tokenizer hands this worker. -/
def mer_counter.start (op : OPERATION) (f : Filter) (canonical : Bool)
    (raw : List Mer) : List TableOp :=
  ((merStream canonical raw).filter (fun m => f.eval m)).map (opFor op)
    ++ [TableOp.done]

/-- The command-line state of `count_main` relevant to mode selection and
the final dump/merge phase, with the input k-mer windows of the main files
and of the optional intersection (`--if`) file made explicit. -/
structure Args where
  canonical_flag : Bool
  mer_len_arg : Nat
  if_given : Bool
  if_mers : List Mer
  file_mers : List Mer
  bf_given : Bool
  bf_check : Mer → Nat
  generator_given : Bool
  no_write_flag : Bool
  no_merge_flag : Bool
  no_unlink_flag : Bool
  lower_count_given : Bool
  lower_count_arg : Nat
  upper_count_given : Bool
  upper_count_arg : Nat

/-- The filter the PRIME counter is built with: the constructor's default
argument `filter* filter = new filter`, a base filter with a null
previous pointer. -/
def primeFilter : Filter := Filter.base Filter.nil

/-- The filter of the main counting pass: `new filter` by default,
replaced by `new filter_bf(*bc)` (previous pointer null) when a Bloom
filter file was supplied. -/
def mainFilter (a : Args) : Filter :=
  if a.bf_given then Filter.bf a.bf_check Filter.nil else Filter.base Filter.nil

/-- The mode of the main counting pass: `OPERATION do_op = COUNT`,
switched to UPDATE after the PRIME pass when an intersection file was
given. -/
def do_op (a : Args) : OPERATION :=
  if a.if_given then OPERATION.UPDATE else OPERATION.COUNT

/-- The table-operation trace of one PRIME worker, empty when no
intersection file was given (the PRIME counter is then never built). -/
def primeTrace (a : Args) : List TableOp :=
  if a.if_given then
    mer_counter.start OPERATION.PRIME primeFilter a.canonical_flag a.if_mers
  else []

/-- The table-operation trace of one worker of the main counting pass. -/
def mainTrace (a : Args) : List TableOp :=
  mer_counter.start (do_op a) (mainFilter a) a.canonical_flag a.file_mers

/-- C5: when an intersection file is supplied, the PRIME pass calls
`set(key)` for each k-mer passing its filter and the subsequent main pass
calls `update_add(key, 1, scratch)` for each accepted k-mer; when no
intersection file is supplied, no PRIME pass runs and the main pass calls
`add(key, 1)` for each accepted k-mer (k-mers canonicalized by the stream
when canonical mode is active). -/
theorem C5_mode_selection (a : Args) :
    (a.if_given = true →
      primeTrace a =
        ((merStream a.canonical_flag a.if_mers).filter
            (fun m => primeFilter.eval m)).map TableOp.set ++ [TableOp.done] ∧
      mainTrace a =
        ((merStream a.canonical_flag a.file_mers).filter
            (fun m => (mainFilter a).eval m)).map
          (fun m => TableOp.updateAdd m 1) ++ [TableOp.done]) ∧
    (a.if_given = false →
      primeTrace a = [] ∧
      mainTrace a =
        ((merStream a.canonical_flag a.file_mers).filter
            (fun m => (mainFilter a).eval m)).map
          (fun m => TableOp.add m 1) ++ [TableOp.done]) := by
  constructor
  · intro h
    constructor
    · simp [primeTrace, h, mer_counter.start, opFor]
    · simp [mainTrace, do_op, h, mer_counter.start, opFor]
  · intro h
    constructor
    · simp [primeTrace, h]
    · simp [mainTrace, do_op, h, mer_counter.start, opFor]

/-- An argument state with an intersection file given, used to witness the
intersection branch of the mode-selection theorem. -/
def argsIf : Args :=
  { canonical_flag := false
    mer_len_arg := 4
    if_given := true
    if_mers := [[Base.A, Base.C, Base.G, Base.T]]
    file_mers := [[Base.A, Base.C, Base.G, Base.T], [Base.T, Base.A, Base.C, Base.G]]
    bf_given := false
    bf_check := fun _ => 0
    generator_given := false
    no_write_flag := false
    no_merge_flag := false
    no_unlink_flag := false
    lower_count_given := false
    lower_count_arg := 0
    upper_count_given := false
    upper_count_arg := 0 }

/-- C5, witness: the intersection branch at the concrete state `argsIf`,
whose hypothesis `if_given = true` holds by computation. -/
theorem C5_mode_selection_witness :
    argsIf.if_given = true ∧
    (primeTrace argsIf =
      ((merStream argsIf.canonical_flag argsIf.if_mers).filter
          (fun m => primeFilter.eval m)).map TableOp.set ++ [TableOp.done] ∧
    mainTrace argsIf =
      ((merStream argsIf.canonical_flag argsIf.file_mers).filter
          (fun m => (mainFilter argsIf).eval m)).map
        (fun m => TableOp.updateAdd m 1) ++ [TableOp.done]) :=
  ⟨rfl, (C5_mode_selection argsIf).1 rfl⟩

/-- C9: in each of the three operating modes, a worker's trace is its
per-k-mer operations followed by a single final `done()`: the trace splits
as a body free of `done` plus one trailing `done`, so `done` is called
exactly once and only after the worker's k-mer iterator is exhausted. -/
theorem C9_done_once_after_input (op : OPERATION) (f : Filter)
    (canonical : Bool) (raw : List Mer) :
    ∃ body, mer_counter.start op f canonical raw = body ++ [TableOp.done] ∧
      TableOp.done ∉ body ∧
      (mer_counter.start op f canonical raw).count TableOp.done = 1 := by
  refine ⟨((merStream canonical raw).filter (fun m => f.eval m)).map (opFor op),
    rfl, ?_, ?_⟩
  · intro hmem
    rcases List.mem_map.mp hmem with ⟨m, _, hm⟩
    cases op <;> simp [opFor] at hm
  · have hnot : TableOp.done ∉
        ((merStream canonical raw).filter (fun m => f.eval m)).map (opFor op) := by
      intro hmem
      rcases List.mem_map.mp hmem with ⟨m, _, hm⟩
      cases op <;> simp [opFor] at hm
    simp [mer_counter.start, List.count_append, List.count_eq_zero.mpr hnot]

/-- C10: the PRIME counter is constructed with the default constant-true
filter — the Bloom filter is loaded only after priming completes and never
reaches the PRIME pass — so every k-mer extracted from the intersection
file is primed via `set(key)`, even when a Bloom filter file is supplied
for the run (`bf_given` and `bf_check` do not appear in the trace). -/
theorem C10_prime_unfiltered (a : Args) (h : a.if_given = true) :
    primeTrace a =
      (merStream a.canonical_flag a.if_mers).map TableOp.set ++ [TableOp.done] := by
  have hall : ∀ m ∈ merStream a.canonical_flag a.if_mers,
      primeFilter.eval m = true := by
    intro m _
    rfl
  simp [primeTrace, h, mer_counter.start, List.filter_eq_self.mpr hall, opFor]

/-- An argument state with both an intersection file and a Bloom filter
supplied, whose Bloom estimate is 0 everywhere (so the Bloom predicate
would suppress every k-mer if it were applied). -/
def argsIfBf : Args :=
  { canonical_flag := false
    mer_len_arg := 4
    if_given := true
    if_mers := [[Base.A, Base.C, Base.G, Base.T], [Base.T, Base.A, Base.C, Base.G]]
    file_mers := []
    bf_given := true
    bf_check := fun _ => 0
    generator_given := false
    no_write_flag := false
    no_merge_flag := false
    no_unlink_flag := false
    lower_count_given := false
    lower_count_arg := 0
    upper_count_given := false
    upper_count_arg := 0 }

/-- C10, witness: at `argsIfBf` — a Bloom filter supplied whose estimate
would suppress everything — the PRIME pass still primes both intersection
k-mers. -/
theorem C10_prime_unfiltered_witness :
    argsIfBf.if_given = true ∧
    primeTrace argsIfBf =
      (merStream argsIfBf.canonical_flag argsIfBf.if_mers).map TableOp.set
        ++ [TableOp.done] :=
  ⟨rfl, C10_prime_unfiltered argsIfBf rfl⟩

/-- The observable events of the final phase of `count_main` (after
counting): a dump with the policy knobs in effect at that dump (`one_file`
flag and the min/max bounds actually set on the dumper), a merge attempt
over a file list with its bounds, a fatal abort with a diagnostic, and the
unlink of one dump file. -/
inductive FinalEvent where
  | dump (oneFile : Bool) (minB : Option Nat) (maxB : Option Nat)
  | mergeAttempt (files : List String) (minB : Nat) (maxB : Nat)
  | abortRun (msg : String)
  | unlinkFile (file : String)
deriving DecidableEq, Repr

/-- The final phase of `count_main` (its last `if(!args.no_write_flag)`
block), as the list of events it produces. `interFiles` are the
intermediate dump files existing when `dumper->nb_files()` is tested;
`finalFile` is the file a non-`one_file` final dump adds to the dumper's
list; `r` is the outcome `merge_files` would have. With no intermediate
file, one dump runs with `one_file(true)` and the given bounds; otherwise
an unfiltered dump runs and, unless merging is disabled, all dump files
are merged with bounds defaulting to `0` and `2^64 - 1`, a `MergeError`
aborts, and a successful merge unlinks every dump file unless
`no_unlink` is set. -/
def finalizeEvents (a : Args) (interFiles : List String) (finalFile : String)
    (r : Except String Unit) : List FinalEvent :=
  if a.no_write_flag then []
  else if interFiles.length = 0 then
    [FinalEvent.dump true
      (if a.lower_count_given then some a.lower_count_arg else none)
      (if a.upper_count_given then some a.upper_count_arg else none)]
  else
    FinalEvent.dump false none none ::
      (if a.no_merge_flag then []
       else
         FinalEvent.mergeAttempt (interFiles ++ [finalFile])
             (if a.lower_count_given then a.lower_count_arg else 0)
             (if a.upper_count_given then a.upper_count_arg else 2 ^ 64 - 1) ::
           (match r with
            | Except.error e => [FinalEvent.abortRun e]
            | Except.ok _ =>
              if a.no_unlink_flag then []
              else (interFiles ++ [finalFile]).map FinalEvent.unlinkFile))

/-- Whether the final phase reaches the call to `merge_files`. -/
def mergeRan (a : Args) (interFiles : List String) : Bool :=
  !a.no_write_flag && !interFiles.isEmpty && !a.no_merge_flag

/-- Whether a merge outcome is a success. -/
def mergeOk (r : Except String Unit) : Bool :=
  match r with
  | .ok _ => true
  | .error _ => false

/-- Whether an event is a merge attempt. -/
def FinalEvent.isMerge : FinalEvent → Bool
  | .mergeAttempt _ _ _ => true
  | _ => false

/-- The file an unlink event removes, if any. -/
def unlinkOf : FinalEvent → Option String
  | .unlinkFile f => some f
  | _ => none

/-- The diagnostic of an abort event, if any. -/
def abortOf : FinalEvent → Option String
  | .abortRun msg => some msg
  | _ => none

/-- The files unlinked during the final phase, in order. -/
def unlinkedFiles (a : Args) (interFiles : List String) (finalFile : String)
    (r : Except String Unit) : List String :=
  (finalizeEvents a interFiles finalFile r).filterMap unlinkOf

/-- The diagnostics of the aborts occurring during the final phase. -/
def abortMsgs (a : Args) (interFiles : List String) (finalFile : String)
    (r : Except String Unit) : List String :=
  (finalizeEvents a interFiles finalFile r).filterMap abortOf

lemma filterMap_unlinkOf_map (l : List String) :
    (l.map FinalEvent.unlinkFile).filterMap unlinkOf = l := by
  induction l with
  | nil => rfl
  | cons x xs ih => simp [List.filterMap_cons, unlinkOf, ih]

lemma filterMap_abortOf_map (l : List String) :
    (l.map FinalEvent.unlinkFile).filterMap abortOf = [] := by
  induction l with
  | nil => rfl
  | cons x xs ih => simp [List.filterMap_cons, abortOf, ih]

lemma filterMap_unlinkOf_comp (l : List String) :
    l.filterMap (unlinkOf ∘ FinalEvent.unlinkFile) = l := by
  induction l with
  | nil => rfl
  | cons x xs ih => simp [List.filterMap_cons, unlinkOf, Function.comp, ih]

lemma filterMap_abortOf_comp (l : List String) :
    l.filterMap (abortOf ∘ FinalEvent.unlinkFile) = [] := by
  induction l with
  | nil => rfl
  | cons x xs ih => simp [List.filterMap_cons, abortOf, Function.comp, ih]

/-- An argument state with merging disabled (`--no-merge`) and writing
enabled, refuting the unconditional-merge reading of the final phase. -/
def argsNoMerge : Args :=
  { canonical_flag := false
    mer_len_arg := 4
    if_given := false
    if_mers := []
    file_mers := []
    bf_given := false
    bf_check := fun _ => 0
    generator_given := false
    no_write_flag := false
    no_merge_flag := true
    no_unlink_flag := false
    lower_count_given := false
    lower_count_arg := 0
    upper_count_given := false
    upper_count_arg := 0 }

/-- C6, counterexample: with writing enabled and one intermediate dump
file present, the claim asserts the dump files are merged into the output;
but when the `no_merge` flag is set the code performs the final dump and
never merges — the event trace contains no merge attempt. -/
theorem C6_unconditional_merge_refuted :
    argsNoMerge.no_write_flag = false ∧
    ["if0"].length ≠ 0 ∧
    (finalizeEvents argsNoMerge ["if0"] "f1" (Except.ok ())).any
        FinalEvent.isMerge = false := by
  decide

/-- C6, amended: after counting, unless writing is disabled: if no
intermediate dump file exists, exactly one final dump is performed with
`one_file(true)` and the supplied lower/upper bounds applied at that dump;
if at least one intermediate dump file exists, a final unfiltered dump is
performed and, unless merging is disabled (`no_merge` flag), all dump
files are merged into the output with bounds `[min, max]`, `min`
defaulting to `0` and `max` to `2^64 - 1` when not given — the bounds
affect only the final records, never an intermediate dump. The dumps
themselves do not depend on the `no_merge` flag: only the merge conjunct
is conditional on it. -/
theorem C6_final_dump_and_merge (a : Args) (interFiles : List String)
    (finalFile : String) (r : Except String Unit)
    (hw : a.no_write_flag = false) :
    (interFiles.length = 0 →
      finalizeEvents a interFiles finalFile r =
        [FinalEvent.dump true
          (if a.lower_count_given then some a.lower_count_arg else none)
          (if a.upper_count_given then some a.upper_count_arg else none)]) ∧
    (interFiles.length ≠ 0 →
      ∃ rest,
        finalizeEvents a interFiles finalFile r =
          FinalEvent.dump false none none :: rest ∧
        (a.no_merge_flag = false →
          ∃ tail, rest =
            FinalEvent.mergeAttempt (interFiles ++ [finalFile])
                (if a.lower_count_given then a.lower_count_arg else 0)
                (if a.upper_count_given then a.upper_count_arg else 2 ^ 64 - 1)
              :: tail)) := by
  constructor
  · intro h0
    simp [finalizeEvents, hw, h0]
  · intro h0
    refine ⟨(if a.no_merge_flag then []
       else
         FinalEvent.mergeAttempt (interFiles ++ [finalFile])
             (if a.lower_count_given then a.lower_count_arg else 0)
             (if a.upper_count_given then a.upper_count_arg else 2 ^ 64 - 1) ::
           (match r with
            | Except.error e => [FinalEvent.abortRun e]
            | Except.ok _ =>
              if a.no_unlink_flag then []
              else (interFiles ++ [finalFile]).map FinalEvent.unlinkFile)),
      ?_, ?_⟩
    · simp [finalizeEvents, hw, h0]
    · intro hm
      refine ⟨(match r with
        | Except.error e => [FinalEvent.abortRun e]
        | Except.ok _ =>
          if a.no_unlink_flag then []
          else (interFiles ++ [finalFile]).map FinalEvent.unlinkFile), ?_⟩
      simp [hm]

/-- C6, witness: the amended final-phase shape at two concrete states with
writing enabled — one with merging enabled (`argsIf`), where the
unfiltered final dump is followed by the merge attempt, and one with
merging disabled (`argsNoMerge`), where the unfiltered final dump is still
performed. -/
theorem C6_final_dump_and_merge_witness :
    argsIf.no_write_flag = false ∧
    (([] : List String).length = 0 →
      finalizeEvents argsIf [] "f0" (Except.ok ()) =
        [FinalEvent.dump true
          (if argsIf.lower_count_given then some argsIf.lower_count_arg else none)
          (if argsIf.upper_count_given then some argsIf.upper_count_arg else none)]) ∧
    (["if0"].length ≠ 0 →
      ∃ rest,
        finalizeEvents argsIf ["if0"] "f1" (Except.ok ()) =
          FinalEvent.dump false none none :: rest ∧
        (argsIf.no_merge_flag = false →
          ∃ tail, rest =
            FinalEvent.mergeAttempt (["if0"] ++ ["f1"])
                (if argsIf.lower_count_given then argsIf.lower_count_arg else 0)
                (if argsIf.upper_count_given then argsIf.upper_count_arg else 2 ^ 64 - 1)
              :: tail)) ∧
    argsNoMerge.no_write_flag = false ∧
    (["if0"].length ≠ 0 →
      ∃ rest,
        finalizeEvents argsNoMerge ["if0"] "f1" (Except.ok ()) =
          FinalEvent.dump false none none :: rest ∧
        (argsNoMerge.no_merge_flag = false →
          ∃ tail, rest =
            FinalEvent.mergeAttempt (["if0"] ++ ["f1"])
                (if argsNoMerge.lower_count_given then argsNoMerge.lower_count_arg else 0)
                (if argsNoMerge.upper_count_given then argsNoMerge.upper_count_arg else 2 ^ 64 - 1)
              :: tail)) :=
  ⟨rfl,
    (C6_final_dump_and_merge argsIf [] "f0" (Except.ok ()) rfl).1,
    (C6_final_dump_and_merge argsIf ["if0"] "f1" (Except.ok ()) rfl).2,
    rfl,
    (C6_final_dump_and_merge argsNoMerge ["if0"] "f1" (Except.ok ()) rfl).2⟩

/-- C8: intermediate dump files are unlinked only after `merge_files`
returns successfully — if the merge aborts, no file is unlinked and the
run aborts with the error's diagnostic — and even after a successful merge
they are retained when the `no_unlink` flag is set; exactly the dump files
are unlinked when the merge ran, succeeded, and unlinking is enabled. -/
theorem C8_unlink_policy (a : Args) (interFiles : List String)
    (finalFile : String) (r : Except String Unit) :
    (unlinkedFiles a interFiles finalFile r ≠ [] →
      mergeRan a interFiles = true ∧ mergeOk r = true ∧
        a.no_unlink_flag = false) ∧
    (mergeRan a interFiles = true → mergeOk r = false →
      unlinkedFiles a interFiles finalFile r = [] ∧
        abortMsgs a interFiles finalFile r ≠ []) ∧
    (a.no_unlink_flag = true → unlinkedFiles a interFiles finalFile r = []) ∧
    (mergeRan a interFiles = true → mergeOk r = true →
      a.no_unlink_flag = false →
      unlinkedFiles a interFiles finalFile r = interFiles ++ [finalFile]) := by
  have hchar : unlinkedFiles a interFiles finalFile r =
      if mergeRan a interFiles && mergeOk r && !a.no_unlink_flag then
        interFiles ++ [finalFile]
      else [] := by
    cases hw : a.no_write_flag <;> cases hm : a.no_merge_flag <;>
      cases hu : a.no_unlink_flag <;> cases interFiles <;> cases r <;>
      simp [unlinkedFiles, finalizeEvents, mergeRan, mergeOk, hw, hm, hu,
        List.filterMap_append, List.filterMap_cons, unlinkOf,
        filterMap_unlinkOf_map, filterMap_unlinkOf_comp]
  refine ⟨?_, ?_, ?_, ?_⟩
  · intro hne
    rw [hchar] at hne
    by_cases h : mergeRan a interFiles && mergeOk r && !a.no_unlink_flag
    · simp only [Bool.and_eq_true, Bool.not_eq_true'] at h
      exact ⟨h.1.1, h.1.2, h.2⟩
    · simp [h] at hne
  · intro hran hok
    constructor
    · rw [hchar]
      simp [hok]
    · cases hw : a.no_write_flag <;> cases hm : a.no_merge_flag <;>
        cases interFiles <;> cases r <;>
        simp_all [abortMsgs, finalizeEvents, mergeRan, mergeOk,
          List.filterMap_append, List.filterMap_cons, abortOf,
          filterMap_abortOf_map, filterMap_abortOf_comp]
  · intro hu
    rw [hchar]
    simp [hu]
  · intro hran hok hu
    rw [hchar]
    simp [hran, hok, hu]

/-- C8, witness: at a concrete state with a failing merge, nothing is
unlinked and the abort diagnostic is recorded; the hypotheses that the
merge ran and failed hold by computation. -/
theorem C8_unlink_policy_witness :
    mergeRan argsIf ["if0"] = true ∧
    mergeOk (Except.error "bad dump file") = false ∧
    (unlinkedFiles argsIf ["if0"] "f1" (Except.error "bad dump file") = [] ∧
      abortMsgs argsIf ["if0"] "f1" (Except.error "bad dump file") ≠ []) :=
  ⟨rfl, rfl,
    (C8_unlink_policy argsIf ["if0"] "f1" (Except.error "bad dump file")).2.1
      rfl rfl⟩

/-- How `count_main` terminates: a normal return (`return 0;`) or a
process abort through `die` carrying a diagnostic message. -/
inductive Outcome where
  | exit0
  | died (msg : String)
deriving DecidableEq, Repr

/-- The environment a `count_main` run interacts with: the Bloom filter
file it would load, the result of `generator_manager::wait()` (true iff
every generator command exited successfully), and the outcome
`merge_files` would have. -/
structure Env where
  bf_file : BloomFile
  generator_ok : Bool
  mergeRes : Except String Unit

/-- The termination of the final phase: the first abort diagnostic if one
occurs, otherwise a normal exit. -/
def finalizeOutcome (a : Args) (interFiles : List String) (finalFile : String)
    (r : Except String Unit) : Outcome :=
  match abortMsgs a interFiles finalFile r with
  | [] => Outcome.exit0
  | msg :: _ => Outcome.died msg

/-- The termination of `count_main`, following its `die` sites in source
order: loading a supplied Bloom filter may abort; after the main pass,
`generator_manager::wait()` returning false aborts with
"Some generator commands failed"; the final phase aborts on a
`MergeError`; otherwise the function returns 0. -/
def countMainOutcome (a : Args) (env : Env) (interFiles : List String)
    (finalFile : String) : Outcome :=
  if a.bf_given && !(loadOk (load_bloom_filter a.mer_len_arg env.bf_file)) then
    Outcome.died "bloom filter load failed"
  else if a.generator_given && !env.generator_ok then
    Outcome.died "Some generator commands failed"
  else finalizeOutcome a interFiles finalFile env.mergeRes

lemma abortMsgs_eq_nil_iff (a : Args) (interFiles : List String)
    (finalFile : String) (r : Except String Unit) :
    abortMsgs a interFiles finalFile r = [] ↔
      (mergeRan a interFiles = true → mergeOk r = true) := by
  cases hw : a.no_write_flag <;> cases hm : a.no_merge_flag <;>
    cases hu : a.no_unlink_flag <;> cases interFiles <;> cases r <;>
    simp [abortMsgs, finalizeEvents, mergeRan, mergeOk, hw, hm, hu,
      List.filterMap_append, List.filterMap_cons, abortOf,
      filterMap_abortOf_map, filterMap_abortOf_comp]

/-- C7: `count_main` returns normally (status 0) if and only if no fatal
condition occurred on its path: a supplied Bloom filter loaded, every
generator command exited successfully, and the merge — when it ran —
succeeded. In particular a generator failure or a `MergeError` each force
an abnormal termination carrying a diagnostic, never a normal return. -/
theorem C7_exit_status_iff (a : Args) (env : Env) (interFiles : List String)
    (finalFile : String) :
    countMainOutcome a env interFiles finalFile = Outcome.exit0 ↔
      ((a.bf_given = true →
          loadOk (load_bloom_filter a.mer_len_arg env.bf_file) = true) ∧
       (a.generator_given = true → env.generator_ok = true) ∧
       (mergeRan a interFiles = true → mergeOk env.mergeRes = true)) := by
  unfold countMainOutcome
  by_cases hbf : a.bf_given && !(loadOk (load_bloom_filter a.mer_len_arg env.bf_file))
  · simp only [hbf, if_true]
    simp only [Bool.and_eq_true, Bool.not_eq_true'] at hbf
    constructor
    · intro h
      exact absurd h (by simp)
    · intro h
      exact absurd (h.1 hbf.1) (by simp [hbf.2])
  · simp only [hbf, if_false]
    by_cases hgen : a.generator_given && !env.generator_ok
    · simp only [hgen, if_true]
      simp only [Bool.and_eq_true, Bool.not_eq_true'] at hgen
      constructor
      · intro h
        exact absurd h (by simp)
      · intro h
        exact absurd (h.2.1 hgen.1) (by simp [hgen.2])
    · simp only [hgen, if_false]
      simp only [Bool.and_eq_true, Bool.not_eq_true', not_and, Bool.not_eq_false] at hbf hgen
      have h1 : a.bf_given = true →
          loadOk (load_bloom_filter a.mer_len_arg env.bf_file) = true := hbf
      have h2 : a.generator_given = true → env.generator_ok = true := hgen
      constructor
      · intro h
        refine ⟨h1, h2, ?_⟩
        unfold finalizeOutcome at h
        rcases habort : abortMsgs a interFiles finalFile env.mergeRes with _ | ⟨msg, rest⟩
        · exact (abortMsgs_eq_nil_iff a interFiles finalFile env.mergeRes).mp habort
        · rw [habort] at h
          exact absurd h (by simp)
      · intro h
        unfold finalizeOutcome
        rw [(abortMsgs_eq_nil_iff a interFiles finalFile env.mergeRes).mpr h.2.2]
        simp

/-- The test sequence "ACGTACGT" of the spec's concrete scenario. -/
def seqACGTACGT : List Base :=
  [Base.A, Base.C, Base.G, Base.T, Base.A, Base.C, Base.G, Base.T]

/-- The 4-mer ACGT. -/
def mACGT : Mer := [Base.A, Base.C, Base.G, Base.T]

/-- The 4-mer CGTA. -/
def mCGTA : Mer := [Base.C, Base.G, Base.T, Base.A]

/-- The 4-mer GTAC. -/
def mGTAC : Mer := [Base.G, Base.T, Base.A, Base.C]

/-- The 4-mer TACG. -/
def mTACG : Mer := [Base.T, Base.A, Base.C, Base.G]

/-- The delta a table operation contributes to the count of key `m`:
`add(m, d)` contributes `d`, every other operation nothing. -/
def addDelta (m : Mer) : TableOp → Option Nat
  | .add key d => if key = m then some d else none
  | _ => none

/-- The count accumulated for key `m` by the `add` operations of a trace —
the final table count of `m` on a table never forced to dump. -/
def addCount (tr : List TableOp) (m : Mer) : Nat :=
  (tr.filterMap (addDelta m)).sum

/-- The multiset of counts asserted by the claim's words for the concrete
scenario: ACGT maps to 2, CGTA and GTAC to 1, everything else — including
TACG — to 0. -/
def claimedCountsC1 (m : Mer) : Nat :=
  if m = mACGT then 2 else if m = mCGTA then 1 else if m = mGTAC then 1 else 0

/-- The corrected multiset of counts for the concrete scenario: the five
extracted windows are ACGT, CGTA, GTAC, TACG, ACGT, so TACG also maps
to 1. -/
def amendedCountsC1 (m : Mer) : Nat :=
  if m = mACGT then 2 else if m = mCGTA then 1 else if m = mGTAC then 1
  else if m = mTACG then 1 else 0

/-- The number of occurrences of the k-mer `m` in a list of k-mers. -/
def merCount (m : Mer) (l : List Mer) : Nat :=
  l.countP (fun x => decide (x = m))

lemma merCount_flatten (m : Mer) (parts : List (List Mer)) :
    merCount m parts.flatten = (parts.map (merCount m)).sum := by
  induction parts with
  | nil => rfl
  | cons p ps ih =>
    simp [merCount, List.flatten_cons, List.countP_append] at *
    simp [ih]

lemma sum_filterMap_addDelta_comp (raw : List Mer) (m : Mer) :
    (raw.filterMap (addDelta m ∘ opFor OPERATION.COUNT)).sum
      = merCount m raw := by
  induction raw with
  | nil => rfl
  | cons x xs ih =>
    by_cases h : x = m <;>
      simp [List.filterMap_cons, Function.comp, opFor, addDelta, h, ih,
        merCount, List.countP_cons, Nat.add_comm]

lemma addCount_countPass (raw : List Mer) (m : Mer) :
    addCount
        (mer_counter.start OPERATION.COUNT (Filter.base Filter.nil) false raw) m
      = merCount m raw := by
  have hstream : merStream false raw = raw := by simp [merStream]
  have hall : ∀ x ∈ raw, (Filter.base Filter.nil).eval x = true :=
    fun x _ => rfl
  unfold addCount mer_counter.start
  rw [hstream, List.filter_eq_self.mpr hall, List.filterMap_append]
  have hdone : List.filterMap (addDelta m) [TableOp.done] = [] := rfl
  rw [hdone, List.append_nil, List.filterMap_map, sum_filterMap_addDelta_comp]

/-- C1, counterexample: the single-threaded COUNT pass over the five
4-mers of "ACGTACGT" (canonical mode off, no filter) gives TACG the count
1, whereas the claimed multiset gives TACG the count 0 — the produced
counts are not the claimed multiset, which omits TACG:1. -/
theorem C1_claimed_multiset_refuted :
    addCount
        (mer_counter.start OPERATION.COUNT (Filter.base Filter.nil) false
          (kmers 4 seqACGTACGT)) mTACG = 1 ∧
    claimedCountsC1 mTACG = 0 := by
  decide

/-- C1, amended: for the input sequence "ACGTACGT" with `k = 4`, canonical
mode off and no filter, the COUNT pass produces exactly the multiset of
counts ACGT:2, CGTA:1, GTAC:1, TACG:1, for every thread count — for every
way of distributing the five extracted 4-mers over workers — on a table
never forced to dump. -/
theorem C1_count_multiset (parts : List (List Mer)) (m : Mer)
    (h : parts.flatten.Perm (kmers 4 seqACGTACGT)) :
    (parts.map (fun p =>
        addCount
          (mer_counter.start OPERATION.COUNT (Filter.base Filter.nil) false p)
          m)).sum
      = amendedCountsC1 m := by
  have hk : kmers 4 seqACGTACGT = [mACGT, mCGTA, mGTAC, mTACG, mACGT] := by
    decide
  calc
    (parts.map (fun p =>
        addCount
          (mer_counter.start OPERATION.COUNT (Filter.base Filter.nil) false p)
          m)).sum
        = (parts.map (merCount m)).sum := by
          simp only [addCount_countPass]
    _ = merCount m parts.flatten := (merCount_flatten m parts).symm
    _ = merCount m (kmers 4 seqACGTACGT) := h.countP_eq _
    _ = amendedCountsC1 m := by
          rw [hk]
          by_cases h1 : m = mACGT
          · subst h1; decide
          · by_cases h2 : m = mCGTA
            · subst h2; decide
            · by_cases h3 : m = mGTAC
              · subst h3; decide
              · by_cases h4 : m = mTACG
                · subst h4; decide
                · have g1 : ¬(mACGT = m) := fun e => h1 e.symm
                  have g2 : ¬(mCGTA = m) := fun e => h2 e.symm
                  have g3 : ¬(mGTAC = m) := fun e => h3 e.symm
                  have g4 : ¬(mTACG = m) := fun e => h4 e.symm
                  simp [merCount, List.countP_cons, g1, g2, g3, g4,
                    amendedCountsC1, h1, h2, h3, h4]

/-- C1, witness: the amended multiset at the single-worker distribution of
the five 4-mers, evaluated at the key TACG; the permutation hypothesis
holds by computation. -/
theorem C1_count_multiset_witness :
    ([kmers 4 seqACGTACGT].flatten).Perm (kmers 4 seqACGTACGT) ∧
    ([kmers 4 seqACGTACGT].map (fun p =>
        addCount
          (mer_counter.start OPERATION.COUNT (Filter.base Filter.nil) false p)
          mTACG)).sum
      = amendedCountsC1 mTACG :=
  ⟨by decide, C1_count_multiset [kmers 4 seqACGTACGT] mTACG (by decide)⟩

end Jellyfish
